import Mathlib

/-!
Shallow embedding of the secrets-manager repository (Go) for checking its
natural-language specification.  Relational tables are modelled as lists of
rows, the external Vault KV store as an association list keyed by path, and
times as unix seconds (Int).  Each definition mirrors one Go function named
in its doc comment.
-/

namespace SecretsManager

/-! ## Data model (internal/models, scripts/vault.sql) -/

/-- Row of the `subscriptions` table (models.Subscription). -/
structure SubscriptionRow where
  id : String
  organizationID : String
  planID : String
  status : String
  secretsLimit : Int
  startDate : Int
  endDate : Int
deriving Repr, DecidableEq

/-- Row of the `usage_statistics` table. -/
structure UsageRow where
  id : String
  organizationID : String
  secretCount : Int
  apiCalls : Int
deriving Repr, DecidableEq

/-- Row of the `secret_metadata` table (models.SecretMetadata). -/
structure MetadataRow where
  id : String
  name : String
  description : String
  organizationID : String
  projectID : String
  environment : String
  createdBy : String
  createdAt : Int
  updatedAt : Int
  version : Int
deriving Repr, DecidableEq

/-- models.Secret as used by the vault service and the HTTP handlers. -/
structure Secret where
  id : String
  name : String
  value : String
  description : String
  organizationID : String
  projectID : String
  environment : String
  createdBy : String
  createdAt : Int
  updatedAt : Int
  version : Int
deriving Repr, DecidableEq

/-- The fields written by vault.Service.StoreSecret into one Vault entry:
value, created_at, created_by, description. -/
structure VaultData where
  value : String
  createdAt : Int
  createdBy : String
  description : String
deriving Repr, DecidableEq

/-- The external Vault KV-v2 store: latest version first, keyed by path. -/
abbrev VaultStore := List (String × VaultData)

/-- The relational database state: the three tables the claims touch. -/
structure DBState where
  subscriptions : List SubscriptionRow
  usage : List UsageRow
  metadata : List MetadataRow
deriving Repr, DecidableEq

/-- Whole-system state: MySQL database plus the external Vault store. -/
structure SysState where
  db : DBState
  vault : VaultStore
deriving Repr, DecidableEq

/-! ## Vault client (internal/vault/client.go) -/

/-- Error returned by Client.GetSecret when the path has no value
("impossible de récupérer le secret"). -/
inductive VaultErr where
  | getFailed (path : String)
deriving Repr, DecidableEq

/-- Latest entry stored at a path, if any. -/
def vaultLookup (st : VaultStore) (path : String) : Option VaultData :=
  (st.find? (fun kv => kv.1 == path)).map (fun kv => kv.2)

namespace Client

/-- Client.WriteSecret: KV-v2 put, the new version becomes the latest. -/
def WriteSecret (st : VaultStore) (path : String) (d : VaultData) : VaultStore :=
  (path, d) :: st

/-- Client.GetSecret: returns the data at the path, or a wrapped error when
the store reports absence. -/
def GetSecret (st : VaultStore) (path : String) : Except VaultErr VaultData :=
  match vaultLookup st path with
  | some d => Except.ok d
  | none => Except.error (VaultErr.getFailed path)

/-- Client.DeleteSecret: after deletion the path reads as absent. -/
def DeleteSecret (st : VaultStore) (path : String) : VaultStore :=
  st.filter (fun kv => !(kv.1 == path))

end Client

/-! ## Vault service (internal/vault/service.go) -/

/-- buildSecretPath: `orgID/projectID/env/name`. -/
def buildSecretPath (orgID projectID env name : String) : String :=
  orgID ++ "/" ++ projectID ++ "/" ++ env ++ "/" ++ name

namespace Service

/-- Service.StoreSecret: writes value, created_at (now), created_by and
description to Vault at the derived path.  Nothing else is touched. -/
def StoreSecret (st : VaultStore) (now : Int) (secret : Secret) : VaultStore :=
  Client.WriteSecret st
    (buildSecretPath secret.organizationID secret.projectID secret.environment secret.name)
    { value := secret.value, createdAt := now,
      createdBy := secret.createdBy, description := secret.description }

/-- Service.GetSecret: fetches the Vault data at the derived path and builds a
models.Secret from it.  Only value, description and created_by are extracted;
every other field keeps its Go zero value (in particular version stays 0). -/
def GetSecret (st : VaultStore) (orgID projectID env name : String) :
    Except VaultErr Secret :=
  match Client.GetSecret st (buildSecretPath orgID projectID env name) with
  | Except.error e => Except.error e
  | Except.ok d =>
      Except.ok
        { id := "", name := name, value := d.value, description := d.description,
          organizationID := orgID, projectID := projectID, environment := env,
          createdBy := d.createdBy, createdAt := 0, updatedAt := 0, version := 0 }

/-- Service.DeleteSecret: deletes the value at the derived path. -/
def DeleteSecret (st : VaultStore) (orgID projectID env name : String) : VaultStore :=
  Client.DeleteSecret st (buildSecretPath orgID projectID env name)

end Service

/-! ## HTTP handlers (internal/api/handlers/secrets.go) -/

namespace Handlers

/-- SecretsHandler.CreateSecret: sets CreatedBy from the request context and
calls vault Service.StoreSecret; on success answers 201.  No quota check, no
metadata insert, no counter change. -/
def CreateSecret (s : SysState) (now : Int) (userID : String) (secret : Secret) :
    SysState × Nat :=
  let sec := { secret with createdBy := userID }
  ({ db := s.db, vault := Service.StoreSecret s.vault now sec }, 201)

/-- SecretsHandler.GetSecret: calls vault Service.GetSecret; any error is
mapped to a 404 "Secret non trouvé" response. -/
def GetSecret (s : SysState) (orgID projectID env name : String) :
    Nat × Option Secret :=
  match Service.GetSecret s.vault orgID projectID env name with
  | Except.error _ => (404, none)
  | Except.ok sec => (200, some sec)

/-- SecretsHandler.DeleteSecret: calls vault Service.DeleteSecret; on success
answers 204.  The relational database is never touched. -/
def DeleteSecret (s : SysState) (orgID projectID env name : String) :
    SysState × Nat :=
  ({ db := s.db, vault := Service.DeleteSecret s.vault orgID projectID env name }, 204)

end Handlers

/-! ## Counters repository (internal/storage/repository_impl.go) -/

namespace SecretCountRepository

/-- SecretCountRepository.GetSecretsCount: SELECT secret_count FROM
usage_statistics WHERE organization_id = ?; no row means 0, not an error. -/
def GetSecretsCount (db : DBState) (orgID : String) : Int :=
  match db.usage.find? (fun u => u.organizationID == orgID) with
  | some u => u.secretCount
  | none => 0

/-- SecretCountRepository.IncrementSecretsCount: UPDATE adding 1 to every
matching row; when no row matched, INSERT a fresh row (newID, count 1). -/
def IncrementSecretsCount (db : DBState) (newID orgID : String) : DBState :=
  if db.usage.any (fun u => u.organizationID == orgID) then
    { db with usage := db.usage.map (fun u =>
        if u.organizationID == orgID then { u with secretCount := u.secretCount + 1 } else u) }
  else
    { db with usage := db.usage ++
        [{ id := newID, organizationID := orgID, secretCount := 1, apiCalls := 0 }] }

/-- SecretCountRepository.DecrementSecretsCount: UPDATE setting
secret_count = GREATEST(0, secret_count - 1) on every matching row. -/
def DecrementSecretsCount (db : DBState) (orgID : String) : DBState :=
  { db with usage := db.usage.map (fun u =>
      if u.organizationID == orgID then { u with secretCount := max 0 (u.secretCount - 1) } else u) }

end SecretCountRepository

/-- The row returned by ORDER BY end_date DESC LIMIT 1: a member of the list
whose end_date is maximal. -/
def latestEnding : List SubscriptionRow → Option SubscriptionRow
  | [] => none
  | r :: rs =>
    match latestEnding rs with
    | none => some r
    | some b => if r.endDate < b.endDate then some b else some r

/-- The rows the two GetSecretsLimit queries range over: status = 'active'
for the organization.  Note: end_date is NOT part of either query. -/
def statusActiveSubs (db : DBState) (orgID : String) : List SubscriptionRow :=
  db.subscriptions.filter (fun r => r.organizationID == orgID && r.status == "active")

namespace SecretCountRepository

/-- SecretCountRepository.GetSecretsLimit: secrets_limit of the
latest-ending status-'active' subscription; default 5 when none exists. -/
def GetSecretsLimit (db : DBState) (orgID : String) : Int :=
  match latestEnding (statusActiveSubs db orgID) with
  | some r => r.secretsLimit
  | none => 5

end SecretCountRepository

/-! ## MySQL secrets repository (internal/storage/mysql/secrets_repository.go) -/

namespace SecretsRepository

/-- SecretsRepository.GetSecretMetadataByPath: first row matching the
(organization, project, environment, name) path; absence is not an error. -/
def GetSecretMetadataByPath (db : DBState) (orgID projectID env name : String) :
    Option MetadataRow :=
  db.metadata.find? (fun m =>
    m.organizationID == orgID && m.projectID == projectID &&
      m.environment == env && m.name == name)

/-- SecretsRepository.CreateSecretMetadata: INSERT the row, then increment the
organization's usage counter (lazily creating the usage row under newUsageID). -/
def CreateSecretMetadata (db : DBState) (newUsageID : String) (m : MetadataRow) : DBState :=
  SecretCountRepository.IncrementSecretsCount
    { db with metadata := db.metadata ++ [m] } newUsageID m.organizationID

/-- SecretsRepository.DeleteSecretMetadata: DELETE the row by id, then
decrement the organization's usage counter. -/
def DeleteSecretMetadata (db : DBState) (id orgID : String) : DBState :=
  SecretCountRepository.DecrementSecretsCount
    { db with metadata := db.metadata.filter (fun m => !(m.id == id)) } orgID

/-- SecretsRepository.DeleteSecretMetadataByPath: resolve the row by path;
when absent, succeed without any change; otherwise delete by id. -/
def DeleteSecretMetadataByPath (db : DBState) (orgID projectID env name : String) : DBState :=
  match GetSecretMetadataByPath db orgID projectID env name with
  | none => db
  | some m => DeleteSecretMetadata db m.id orgID

/-- SecretsRepository.GetSecretsLimit (the MySQL variant): same query as the
counters repository, but the no-row default is 0, not 5. -/
def GetSecretsLimit (db : DBState) (orgID : String) : Int :=
  match latestEnding (statusActiveSubs db orgID) with
  | some r => r.secretsLimit
  | none => 0

end SecretsRepository

/-! ## Subscription service (internal/storage/subscription_service.go) -/

/-- A subscription row counted as active at instant `now` by
GetActiveSubscription: status 'active' and end_date > NOW(). -/
def activeFor (orgID : String) (now : Int) (r : SubscriptionRow) : Bool :=
  r.organizationID == orgID && r.status == "active" && now < r.endDate

/-- The active rows of one organization at instant `now`. -/
def activeSubs (subs : List SubscriptionRow) (orgID : String) (now : Int) :
    List SubscriptionRow :=
  subs.filter (activeFor orgID now)

namespace SubscriptionService

/-- SubscriptionService.GetActiveSubscription: the latest-ending subscription
with status 'active' and end_date > NOW(); none when no such row exists. -/
def GetActiveSubscription (db : DBState) (orgID : String) (now : Int) :
    Option SubscriptionRow :=
  latestEnding (activeSubs db.subscriptions orgID now)

/-- SubscriptionService.cancelSubscription: UPDATE status = 'cancelled' on
every row with the given id. -/
def cancelSubscription (db : DBState) (subscriptionID : String) : DBState :=
  { db with subscriptions := db.subscriptions.map (fun r =>
      if r.id == subscriptionID then { r with status := "cancelled" } else r) }

/-- SubscriptionService.CreateSubscription: cancel the currently active
subscription of the organization if one exists, then INSERT the new row. -/
def CreateSubscription (db : DBState) (sub : SubscriptionRow) (now : Int) : DBState :=
  let db1 :=
    match GetActiveSubscription db sub.organizationID now with
    | some existing => cancelSubscription db existing.id
    | none => db
  { db1 with subscriptions := db1.subscriptions ++ [sub] }

/-- SubscriptionService.CanCreateSecret: count < limit, both read through the
counters repository (whose no-subscription default is 5). -/
def CanCreateSecret (db : DBState) (orgID : String) : Bool :=
  SecretCountRepository.GetSecretsCount db orgID <
    SecretCountRepository.GetSecretsLimit db orgID

end SubscriptionService

/-! ## Authentication services (internal/auth) -/

/-- The claim map carried by a minted JWT: sub, "type", exp, iat.  A missing
claim models a failed `claims[k].(string)` cast. -/
structure TokenClaims where
  sub : Option String
  typ : Option String
  exp : Int
  iat : Int
deriving Repr, DecidableEq

/-- A serialized signed token: its claims, the secret it was signed with, and
whether it was signed with an HMAC method. -/
structure SignedToken where
  claims : TokenClaims
  signedWith : String
  hmacSigned : Bool
deriving Repr, DecidableEq

/-- The distinct Go error values the auth code can return.  The five err*
values are the package sentinels; the jwtValidation* values are the raw
errors produced by jwt.Parse itself (the expired one wraps
jwt.ErrTokenExpired, which errors.Is distinguishes from every sentinel). -/
inductive GoErr where
  | errInvalidCredentials
  | errUserExists
  | errInvalidToken
  | errUserNotFound
  | errTokenExpired
  | jwtValidation (expired : Bool) (sigInvalid : Bool)
  | jwtUnverifiable
deriving Repr, DecidableEq

/-- jwt.Parse (golang-jwt v4) with the HMAC-checking key function.  A keyfunc
failure (non-HMAC method) aborts immediately with an Unverifiable validation
error, before any claims validation.  Otherwise v4 validates the claims
(exp) BEFORE verifying the signature and ORs the Expired and
SignatureInvalid flags into one ValidationError, so a wrongly-signed expired
token carries both flags; errors.Is(err, jwt.ErrTokenExpired) tests the
Expired flag.  jwtValidation records the two flags. -/
def jwtParse (secret : String) (now : Int) (t : SignedToken) :
    Except GoErr TokenClaims :=
  if !t.hmacSigned then Except.error GoErr.jwtUnverifiable
  else if decide (t.claims.exp ≤ now) || !(t.signedWith == secret) then
    Except.error
      (GoErr.jwtValidation (decide (t.claims.exp ≤ now)) (!(t.signedWith == secret)))
  else Except.ok t.claims

/-- ServiceImproved configuration: signing secret and the two lifetimes. -/
structure AuthConfig where
  jwtSecret : String
  jwtExpiry : Int
  refreshTime : Int
deriving Repr, DecidableEq

/-- generateToken (ServiceImproved and the typed auth service): claims
sub, type, exp = now + expiry, iat = now, signed HMAC with the secret. -/
def generateToken (secret : String) (now : Int) (userID tokenType : String)
    (expiry : Int) : SignedToken :=
  { claims := { sub := some userID, typ := some tokenType,
                exp := now + expiry, iat := now },
    signedWith := secret, hmacSigned := true }

/-- The TokenResponse a successful Authenticate/RefreshToken returns. -/
structure TokenResponse where
  token : SignedToken
  refreshToken : SignedToken
  expiresAt : Int
  userID : String
deriving Repr, DecidableEq

/-- generateTokenPair: an "access" token with the jwt expiry and a "refresh"
token with the longer refresh lifetime, both for the same subject. -/
def generateTokenPair (cfg : AuthConfig) (now : Int) (userID : String) :
    TokenResponse :=
  { token := generateToken cfg.jwtSecret now userID "access" cfg.jwtExpiry,
    refreshToken := generateToken cfg.jwtSecret now userID "refresh" cfg.refreshTime,
    expiresAt := now + cfg.jwtExpiry,
    userID := userID }

namespace ServiceImproved

/-- ServiceImproved.parseToken: errors.Is(err, jwt.ErrTokenExpired) — i.e.
the Expired flag is set, even when the signature is also invalid — maps to
the ErrTokenExpired sentinel; every other parse failure to ErrInvalidToken. -/
def parseToken (secret : String) (now : Int) (t : SignedToken) :
    Except GoErr TokenClaims :=
  match jwtParse secret now t with
  | Except.error (GoErr.jwtValidation true _) => Except.error GoErr.errTokenExpired
  | Except.error _ => Except.error GoErr.errInvalidToken
  | Except.ok c => Except.ok c

/-- ServiceImproved.VerifyToken: parse, require type = "access", extract sub. -/
def VerifyToken (secret : String) (now : Int) (t : SignedToken) :
    Except GoErr String :=
  match parseToken secret now t with
  | Except.error e => Except.error e
  | Except.ok c =>
      if !(c.typ == some "access") then Except.error GoErr.errInvalidToken
      else match c.sub with
        | none => Except.error GoErr.errInvalidToken
        | some userID => Except.ok userID

/-- ServiceImproved.RefreshToken: parse, require type = "refresh", extract
sub, re-resolve the user (ErrUserNotFound when absent), then mint a pair. -/
def RefreshToken (cfg : AuthConfig) (users : List String) (now : Int)
    (t : SignedToken) : Except GoErr TokenResponse :=
  match parseToken cfg.jwtSecret now t with
  | Except.error e => Except.error e
  | Except.ok c =>
      if !(c.typ == some "refresh") then Except.error GoErr.errInvalidToken
      else match c.sub with
        | none => Except.error GoErr.errInvalidToken
        | some userID =>
            if users.contains userID then
              Except.ok (generateTokenPair cfg now userID)
            else Except.error GoErr.errUserNotFound

end ServiceImproved

namespace ServiceTyped

/-- Service.RefreshToken of the typed internal/auth/service.go variant: same
as the improved one except that the subject's continued existence is NOT
checked — a new pair is minted for any valid refresh token. -/
def RefreshToken (cfg : AuthConfig) (now : Int) (t : SignedToken) :
    Except GoErr TokenResponse :=
  match ServiceImproved.parseToken cfg.jwtSecret now t with
  | Except.error e => Except.error e
  | Except.ok c =>
      if !(c.typ == some "refresh") then Except.error GoErr.errInvalidToken
      else match c.sub with
        | none => Except.error GoErr.errInvalidToken
        | some userID => Except.ok (generateTokenPair cfg now userID)

end ServiceTyped

namespace ServiceLegacy

/-- The legacy Service.VerifyToken (internal/auth/service.go, the untyped
variant): propagates the raw jwt.Parse error unchanged, never inspects the
"type" claim, and only extracts sub. -/
def VerifyToken (secret : String) (now : Int) (t : SignedToken) :
    Except GoErr String :=
  match jwtParse secret now t with
  | Except.error e => Except.error e
  | Except.ok c =>
      match c.sub with
      | none => Except.error GoErr.errInvalidToken
      | some userID => Except.ok userID

end ServiceLegacy

/-! ## Concrete example states used by the claim theorems -/

/-- Concrete database for claim C1: the organization holds 5 secrets and has
no subscription row, so the free-tier limit 5 applies and CanCreateSecret is
false. -/
def c1db : DBState :=
  { subscriptions := [],
    usage := [{ id := "usage1", organizationID := "org1", secretCount := 5, apiCalls := 0 }],
    metadata := [] }

/-- Concrete creation request for claim C1. -/
def c1sec : Secret :=
  { id := "", name := "n1", value := "v1", description := "d1",
    organizationID := "org1", projectID := "p1", environment := "e1",
    createdBy := "", createdAt := 0, updatedAt := 0, version := 0 }
/-- Concrete metadata row for claim C2. -/
def c2row : MetadataRow :=
  { id := "m1", name := "n1", description := "d1", organizationID := "o1",
    projectID := "p1", environment := "e1", createdBy := "u1",
    createdAt := 0, updatedAt := 0, version := 1 }

/-- Concrete database for claim C2: metadata exists for the path but the
value store is empty (the unsafe orphan direction). -/
def c2db : DBState := { subscriptions := [], usage := [], metadata := [c2row] }
/-- Concrete metadata row for claim C7. -/
def c7row : MetadataRow :=
  { id := "m7", name := "n1", description := "d1", organizationID := "o1",
    projectID := "p1", environment := "e1", createdBy := "u1",
    createdAt := 0, updatedAt := 0, version := 1 }

/-- Concrete database for claim C7: one live secret, secret_count = 1. -/
def c7db : DBState :=
  { subscriptions := [],
    usage := [{ id := "usage7", organizationID := "o1", secretCount := 1, apiCalls := 0 }],
    metadata := [c7row] }

/-- Concrete system state for claim C7: the value is present in the store. -/
def c7s : SysState :=
  { db := c7db,
    vault := [("o1/p1/e1/n1",
      { value := "v1", createdAt := 0, createdBy := "u1", description := "d1" })] }
/-- Concrete database for claim C6: a single subscription with status
'active' whose end_date (-100) is already past at now = 0, limit 99. -/
def c6db : DBState :=
  { subscriptions :=
      [{ id := "s6", organizationID := "o1", planID := "pl", status := "active",
         secretsLimit := 99, startDate := -200, endDate := -100 }],
    usage := [], metadata := [] }
/-- The invariant: at any instant, every organization has at most one
subscription row that is active (status 'active', end_date in the future). -/
def AtMostOneActive (subs : List SubscriptionRow) (now : Int) : Prop :=
  ∀ orgID : String, (activeSubs subs orgID now).length ≤ 1
/-- Concrete database for the C9 witness: one active subscription. -/
def c9db : DBState :=
  { subscriptions :=
      [{ id := "s1", organizationID := "o1", planID := "pl", status := "active",
         secretsLimit := 10, startDate := 0, endDate := 100 }],
    usage := [], metadata := [] }

/-- Concrete new subscription for the C9 witness. -/
def c9sub : SubscriptionRow :=
  { id := "s2", organizationID := "o1", planID := "pl2", status := "active",
    secretsLimit := 50, startDate := 0, endDate := 200 }

/-! ## Shared lemmas -/

theorem vaultLookup_write_self (st : VaultStore) (path : String) (d : VaultData) :
    vaultLookup (Client.WriteSecret st path d) path = some d := by
  simp [vaultLookup, Client.WriteSecret, List.find?_cons_of_pos]

theorem getSecret_after_store (st : VaultStore) (now : Int) (sec : Secret) :
    Service.GetSecret (Service.StoreSecret st now sec)
      sec.organizationID sec.projectID sec.environment sec.name =
    Except.ok
      { id := "", name := sec.name, value := sec.value, description := sec.description,
        organizationID := sec.organizationID, projectID := sec.projectID,
        environment := sec.environment, createdBy := sec.createdBy,
        createdAt := 0, updatedAt := 0, version := 0 } := by
  simp [Service.GetSecret, Service.StoreSecret, Client.GetSecret, vaultLookup_write_self]

theorem find?_map_comm {α : Type} (g : α → α) (p : α → Bool)
    (hp : ∀ a, p (g a) = p a) (l : List α) :
    (l.map g).find? p = (l.find? p).map g := by
  induction l with
  | nil => rfl
  | cons a l ih =>
      by_cases h : p a = true
      · rw [List.map_cons, List.find?_cons_of_pos _ ((hp a).trans h),
          List.find?_cons_of_pos _ h]
        rfl
      · rw [List.map_cons, List.find?_cons_of_neg, List.find?_cons_of_neg _ ?_, ih]
        · simpa using h
        · rw [hp a]; simpa using h

/-! ## Claim theorems -/

/-- C1 counterexample: with count = limit = 5 the quota check is false, yet
the creation path answers 201, writes the value into the value store, and
leaves the whole relational state (metadata and secret_count) untouched —
the claim requires a QuotaExceeded failure with nothing written. -/
theorem C1_counterexample :
    SubscriptionService.CanCreateSecret c1db "org1" = false ∧
    (Handlers.CreateSecret ⟨c1db, []⟩ 7 "user1" c1sec).2 = 201 ∧
    vaultLookup (Handlers.CreateSecret ⟨c1db, []⟩ 7 "user1" c1sec).1.vault
      "org1/p1/e1/n1" =
      some { value := "v1", createdAt := 7, createdBy := "user1", description := "d1" } ∧
    (Handlers.CreateSecret ⟨c1db, []⟩ 7 "user1" c1sec).1.db = c1db := by
  refine ⟨by decide, rfl, by decide, rfl⟩

/-- C1 amended: the creation path performs no quota check and no relational
write at all — for every state and request it returns 201, stores the value
at the derived path, and leaves the database (metadata rows and secret_count)
unchanged; CanCreateSecret computes count < limit but is never consulted. -/
theorem C1_create_bypasses_quota (s : SysState) (now : Int) (userID : String)
    (sec : Secret) (db : DBState) (orgID : String) :
    (Handlers.CreateSecret s now userID sec).1.db = s.db ∧
    (Handlers.CreateSecret s now userID sec).2 = 201 ∧
    vaultLookup (Handlers.CreateSecret s now userID sec).1.vault
        (buildSecretPath sec.organizationID sec.projectID sec.environment sec.name) =
      some { value := sec.value, createdAt := now, createdBy := userID,
             description := sec.description } ∧
    (SubscriptionService.CanCreateSecret db orgID = true ↔
      SecretCountRepository.GetSecretsCount db orgID <
        SecretCountRepository.GetSecretsLimit db orgID) := by
  refine ⟨rfl, rfl, ?_, ?_⟩
  · exact vaultLookup_write_self s.vault _ _
  · simp [SubscriptionService.CanCreateSecret]

/-- C2 counterexample: metadata exists for the path while the value store
reports absence, yet Read produces exactly the same outcome (a generic
client get-error, a 404 from the handler) as when no metadata exists at all.
No InconsistentState error value exists anywhere in the read path, so the
claimed distinction from SecretNotFound is absent, and the metadata registry
is never consulted first. -/
theorem C2_counterexample :
    SecretsRepository.GetSecretMetadataByPath c2db "o1" "p1" "e1" "n1" = some c2row ∧
    Handlers.GetSecret ⟨c2db, []⟩ "o1" "p1" "e1" "n1" = (404, none) ∧
    Handlers.GetSecret ⟨⟨[], [], []⟩, []⟩ "o1" "p1" "e1" "n1" = (404, none) ∧
    Service.GetSecret ([] : VaultStore) "o1" "p1" "e1" "n1" =
      Except.error (VaultErr.getFailed "o1/p1/e1/n1") := by
  refine ⟨by decide, by decide, by decide, rfl⟩

/-- C2 amended: Read never consults the metadata registry — its outcome is a
function of the value store alone — and when the value store lacks the path
it returns the single client get-error (mapped to 404 by the handler),
identical whether or not metadata exists; no InconsistentState value exists. -/
theorem C2_read_ignores_metadata (db1 db2 : DBState) (v : VaultStore)
    (orgID projectID env name : String) :
    Handlers.GetSecret ⟨db1, v⟩ orgID projectID env name =
      Handlers.GetSecret ⟨db2, v⟩ orgID projectID env name ∧
    (vaultLookup v (buildSecretPath orgID projectID env name) = none →
      Service.GetSecret v orgID projectID env name =
        Except.error (VaultErr.getFailed (buildSecretPath orgID projectID env name))) := by
  constructor
  · rfl
  · intro h
    simp [Service.GetSecret, Client.GetSecret, h]

/-- C2 witness: the amended theorem applied at a concrete empty store. -/
theorem C2_witness :
    Handlers.GetSecret ⟨⟨[], [], []⟩, []⟩ "o1" "p1" "e1" "n1" =
      Handlers.GetSecret ⟨⟨[], [], []⟩, []⟩ "o1" "p1" "e1" "n1" ∧
    Service.GetSecret ([] : VaultStore) "o1" "p1" "e1" "n1" =
      Except.error (VaultErr.getFailed (buildSecretPath "o1" "p1" "e1" "n1")) := by
  have h := C2_read_ignores_metadata ⟨[], [], []⟩ ⟨[], [], []⟩ [] "o1" "p1" "e1" "n1"
  exact ⟨h.1, h.2 rfl⟩

/-- C7 counterexample: deleting an existing secret through the API removes
only the value — the metadata row survives and secret_count stays 1, where
the claim requires the row deleted and the counter decremented to 0. -/
theorem C7_counterexample :
    SecretsRepository.GetSecretMetadataByPath c7s.db "o1" "p1" "e1" "n1" = some c7row ∧
    (Handlers.DeleteSecret c7s "o1" "p1" "e1" "n1").2 = 204 ∧
    (Handlers.DeleteSecret c7s "o1" "p1" "e1" "n1").1.db = c7db ∧
    SecretCountRepository.GetSecretsCount
      (Handlers.DeleteSecret c7s "o1" "p1" "e1" "n1").1.db "o1" = 1 := by
  refine ⟨by decide, rfl, rfl, by decide⟩

/-- C7 amended: the delete behaviour is split across two never-combined
paths.  DeleteSecretMetadataByPath on an absent path is a no-op success and
on a present path removes the row and decrements the counter by 1 floored at
0, while the API delete (value store only) leaves the relational state —
counter included — completely unchanged. -/
theorem C7_delete_split (db : DBState) (s : SysState)
    (orgID projectID env name : String) (m : MetadataRow) :
    (SecretsRepository.GetSecretMetadataByPath db orgID projectID env name = none →
      SecretsRepository.DeleteSecretMetadataByPath db orgID projectID env name = db) ∧
    (SecretsRepository.GetSecretMetadataByPath db orgID projectID env name = some m →
      SecretCountRepository.GetSecretsCount
          (SecretsRepository.DeleteSecretMetadataByPath db orgID projectID env name) orgID =
        max 0 (SecretCountRepository.GetSecretsCount db orgID - 1) ∧
      ∀ r ∈ (SecretsRepository.DeleteSecretMetadataByPath db orgID projectID env name).metadata,
        ¬(r.id = m.id)) ∧
    (Handlers.DeleteSecret s orgID projectID env name).1.db = s.db := by
  refine ⟨?_, ?_, rfl⟩
  · intro h
    simp [SecretsRepository.DeleteSecretMetadataByPath, h]
  · intro h
    simp only [SecretsRepository.DeleteSecretMetadataByPath, h]
    refine ⟨?_, ?_⟩
    · simp only [SecretsRepository.DeleteSecretMetadata,
        SecretCountRepository.DecrementSecretsCount, SecretCountRepository.GetSecretsCount]
      have hcomm := find?_map_comm
        (fun u : UsageRow =>
          if u.organizationID == orgID then
            { u with secretCount := max 0 (u.secretCount - 1) } else u)
        (fun u : UsageRow => u.organizationID == orgID)
        (fun u => by by_cases hu : u.organizationID == orgID <;> simp [hu])
        db.usage
      rw [hcomm]
      cases hf : db.usage.find? (fun u => u.organizationID == orgID) with
      | none => simp
      | some u =>
          have hu := List.find?_some hf
          have hpeq : u.organizationID = orgID := by simpa using hu
          simp [hpeq]
    · intro r hr
      simp only [SecretsRepository.DeleteSecretMetadata,
        SecretCountRepository.DecrementSecretsCount] at hr
      have hmem := List.of_mem_filter hr
      simpa using hmem

/-- C7 witness: the amended theorem applied at the absent-path database and
at the one-secret database of the counterexample. -/
theorem C7_witness :
    SecretsRepository.DeleteSecretMetadataByPath ⟨[], [], []⟩ "o1" "p1" "e1" "n1" =
      (⟨[], [], []⟩ : DBState) ∧
    SecretCountRepository.GetSecretsCount
        (SecretsRepository.DeleteSecretMetadataByPath c7db "o1" "p1" "e1" "n1") "o1" =
      max 0 (SecretCountRepository.GetSecretsCount c7db "o1" - 1) := by
  refine ⟨(C7_delete_split ⟨[], [], []⟩ ⟨⟨[], [], []⟩, []⟩ "o1" "p1" "e1" "n1" c7row).1
      (by decide),
    ((C7_delete_split c7db ⟨c7db, []⟩ "o1" "p1" "e1" "n1" c7row).2.1 (by decide)).1⟩

/-- C8 counterexample: a concrete Create followed by Read on the same path
returns the stored value and description but version 0, not the claimed
version 1 — the read path never populates the version field. -/
theorem C8_counterexample :
    Service.GetSecret
        (Service.StoreSecret []
          9 { id := "", name := "n1", value := "v1", description := "d1",
              organizationID := "o1", projectID := "p1", environment := "e1",
              createdBy := "cb", createdAt := 0, updatedAt := 0, version := 1 })
        "o1" "p1" "e1" "n1" =
      Except.ok
        { id := "", name := "n1", value := "v1", description := "d1",
          organizationID := "o1", projectID := "p1", environment := "e1",
          createdBy := "cb", createdAt := 0, updatedAt := 0, version := 0 } ∧
    (Service.GetSecret
        (Service.StoreSecret []
          9 { id := "", name := "n1", value := "v1", description := "d1",
              organizationID := "o1", projectID := "p1", environment := "e1",
              createdBy := "cb", createdAt := 0, updatedAt := 0, version := 1 })
        "o1" "p1" "e1" "n1").toOption.map Secret.version ≠ some 1 := by
  exact ⟨rfl, by decide⟩

/-- C8 amended: Create followed by Read on the same path returns the same
value and the same description, but the version is always 0 (the Go zero
value), never 1. -/
theorem C8_roundtrip (st : VaultStore) (now : Int) (sec : Secret) :
    (Service.GetSecret (Service.StoreSecret st now sec)
        sec.organizationID sec.projectID sec.environment sec.name).toOption.map
      Secret.value = some sec.value ∧
    (Service.GetSecret (Service.StoreSecret st now sec)
        sec.organizationID sec.projectID sec.environment sec.name).toOption.map
      Secret.description = some sec.description ∧
    (Service.GetSecret (Service.StoreSecret st now sec)
        sec.organizationID sec.projectID sec.environment sec.name).toOption.map
      Secret.version = some 0 := by
  rw [getSecret_after_store]
  exact ⟨rfl, rfl, rfl⟩

/-! ## Lemmas about latestEnding (ORDER BY end_date DESC LIMIT 1) -/

theorem latestEnding_eq_none {l : List SubscriptionRow} :
    latestEnding l = none ↔ l = [] := by
  cases l with
  | nil => simp [latestEnding]
  | cons r rs =>
      simp only [latestEnding]
      cases latestEnding rs with
      | none => simp
      | some b =>
          by_cases hlt : r.endDate < b.endDate <;> simp [hlt]

theorem latestEnding_mem {l : List SubscriptionRow} {e : SubscriptionRow}
    (h : latestEnding l = some e) : e ∈ l := by
  induction l with
  | nil => simp [latestEnding] at h
  | cons r rs ih =>
      simp only [latestEnding] at h
      cases hr : latestEnding rs with
      | none =>
          rw [hr] at h
          simp at h
          simp [h]
      | some b =>
          rw [hr] at h
          by_cases hlt : r.endDate < b.endDate
          · simp only [if_pos hlt, Option.some.injEq] at h
            exact List.mem_cons_of_mem r (ih (by rw [hr, h]))
          · simp only [if_neg hlt, Option.some.injEq] at h
            simp [h]

theorem latestEnding_maximal {l : List SubscriptionRow} :
    ∀ {e : SubscriptionRow}, latestEnding l = some e →
      ∀ x ∈ l, x.endDate ≤ e.endDate := by
  induction l with
  | nil => intro e h; simp [latestEnding] at h
  | cons r rs ih =>
      intro e h x hx
      simp only [latestEnding] at h
      cases hr : latestEnding rs with
      | none =>
          rw [hr] at h
          simp at h
          have hnil : rs = [] := latestEnding_eq_none.mp hr
          subst hnil
          simp at hx
          rw [hx, h]
      | some b =>
          rw [hr] at h
          by_cases hlt : r.endDate < b.endDate
          · simp only [if_pos hlt, Option.some.injEq] at h
            subst h
            rcases List.mem_cons.mp hx with hx1 | hx2
            · rw [hx1]
              exact le_of_lt hlt
            · exact ih hr x hx2
          · simp only [if_neg hlt, Option.some.injEq] at h
            subst h
            rcases List.mem_cons.mp hx with hx1 | hx2
            · exact le_of_eq (congrArg SubscriptionRow.endDate hx1)
            · exact le_trans (ih hr x hx2) (not_lt.mp hlt)

/-- C6 counterexample: the organization has no subscription that is active in
the claim's sense at now = 0 (the only row's end_date is past), so the claim
requires the free-tier default 5; the lookup nevertheless returns that row's
limit 99, because the query never checks end_date. -/
theorem C6_counterexample :
    activeSubs c6db.subscriptions "o1" 0 = [] ∧
    SecretCountRepository.GetSecretsLimit c6db "o1" = 99 ∧
    SecretCountRepository.GetSecretsLimit c6db "o1" ≠ 5 := by
  refine ⟨by decide, by decide, by decide⟩

/-- C6 amended: the secrets-limit lookup ranges over the subscriptions with
status 'active' regardless of end_date; among those the latest-ending one's
limit is returned, and only when the organization has no status-'active' row
at all does it fall back to the free-tier default 5. -/
theorem C6_limit_resolution (db : DBState) (orgID : String) :
    (statusActiveSubs db orgID = [] ∧
      SecretCountRepository.GetSecretsLimit db orgID = 5) ∨
    (∃ r, r ∈ db.subscriptions ∧ r.organizationID = orgID ∧ r.status = "active" ∧
      SecretCountRepository.GetSecretsLimit db orgID = r.secretsLimit ∧
      ∀ x ∈ db.subscriptions, x.organizationID = orgID → x.status = "active" →
        x.endDate ≤ r.endDate) := by
  cases hl : latestEnding (statusActiveSubs db orgID) with
  | none =>
      left
      exact ⟨latestEnding_eq_none.mp hl,
        by simp [SecretCountRepository.GetSecretsLimit, hl]⟩
  | some r =>
      right
      have hmem := latestEnding_mem hl
      have hmax := latestEnding_maximal hl
      have hm2 := List.mem_filter.mp hmem
      have hprops : r.organizationID = orgID ∧ r.status = "active" := by
        have := hm2.2
        simp at this
        exact this
      refine ⟨r, hm2.1, hprops.1, hprops.2,
        by simp [SecretCountRepository.GetSecretsLimit, hl], ?_⟩
      intro x hx h1 h2
      exact hmax x (List.mem_filter.mpr ⟨hx, by simp [statusActiveSubs, h1, h2]⟩)

/-- C10 counterexample: for an organization with no subscription row at all,
the counters-repository lookup returns the free-tier 5 while the MySQL
secrets-repository lookup returns 0 — the two are not equivalent. -/
theorem C10_counterexample :
    SecretCountRepository.GetSecretsLimit ⟨[], [], []⟩ "o1" = 5 ∧
    SecretsRepository.GetSecretsLimit ⟨[], [], []⟩ "o1" = 0 ∧
    SecretCountRepository.GetSecretsLimit ⟨[], [], []⟩ "o1" ≠
      SecretsRepository.GetSecretsLimit ⟨[], [], []⟩ "o1" := by
  refine ⟨by decide, by decide, by decide⟩

/-- C10 amended: the two lookups agree whenever the organization has at
least one status-'active' subscription row; when it has none they disagree,
the counters repository defaulting to 5 and the MySQL repository to 0. -/
theorem C10_limits_agreement (db : DBState) (orgID : String) :
    SecretCountRepository.GetSecretsLimit db orgID =
      SecretsRepository.GetSecretsLimit db orgID ∨
    (statusActiveSubs db orgID = [] ∧
      SecretCountRepository.GetSecretsLimit db orgID = 5 ∧
      SecretsRepository.GetSecretsLimit db orgID = 0) := by
  cases hl : latestEnding (statusActiveSubs db orgID) with
  | none =>
      right
      exact ⟨latestEnding_eq_none.mp hl,
        by simp [SecretCountRepository.GetSecretsLimit, hl],
        by simp [SecretsRepository.GetSecretsLimit, hl]⟩
  | some r =>
      left
      simp [SecretCountRepository.GetSecretsLimit, SecretsRepository.GetSecretsLimit, hl]

/-! ## The at-most-one-active-subscription invariant (claim C9) -/

theorem length_le_one_eq {α : Type} {l : List α} (h : l.length ≤ 1)
    {a b : α} (ha : a ∈ l) (hb : b ∈ l) : a = b := by
  match l with
  | [] => cases ha
  | [x] =>
      simp at ha hb
      rw [ha, hb]
  | x :: y :: t => simp at h

theorem filter_map_length_le {α : Type} (g : α → α) (p : α → Bool)
    (hp : ∀ a, p (g a) = true → p a = true) (l : List α) :
    ((l.map g).filter p).length ≤ (l.filter p).length := by
  induction l with
  | nil => simp
  | cons a l ih =>
      simp only [List.map_cons, List.filter_cons]
      by_cases hga : p (g a) = true
      · rw [if_pos hga, if_pos (hp a hga)]
        simpa using ih
      · rw [if_neg hga]
        by_cases hpa : p a = true
        · rw [if_pos hpa]
          exact Nat.le_succ_of_le ih
        · rw [if_neg hpa]
          exact ih

/-- Cancelling a row (by id) never turns an inactive row active. -/
theorem activeFor_cancel {orgID : String} {now : Int} (i : String)
    (r : SubscriptionRow)
    (h : activeFor orgID now
      (if r.id == i then { r with status := "cancelled" } else r) = true) :
    activeFor orgID now r = true := by
  by_cases hid : r.id == i
  · rw [if_pos hid] at h
    simp [activeFor] at h
  · rwa [if_neg hid] at h

/-- After cancelling the unique active row of an organization, no active row
of that organization remains. -/
theorem activeSubs_after_cancel (subs : List SubscriptionRow) (orgID : String)
    (now : Int) (e : SubscriptionRow)
    (hlen : (activeSubs subs orgID now).length ≤ 1)
    (hmem : e ∈ activeSubs subs orgID now) :
    activeSubs (subs.map (fun r =>
        if r.id == e.id then { r with status := "cancelled" } else r)) orgID now = [] := by
  rw [activeSubs, List.filter_eq_nil_iff]
  intro x hx
  rcases List.mem_map.mp hx with ⟨r, hr, hrx⟩
  intro hact
  have hact2 : activeFor orgID now r = true := by
    rw [← hrx] at hact
    exact activeFor_cancel e.id r hact
  have hrmem : r ∈ activeSubs subs orgID now := List.mem_filter.mpr ⟨hr, hact2⟩
  have hre : r = e := length_le_one_eq hlen hrmem hmem
  rw [hre] at hrx
  simp at hrx
  rw [← hrx] at hact
  simp [activeFor] at hact

/-- C9: CreateSubscription cancels the organization's current active
subscription (when one exists) before inserting the new row, and this
preserves the at-most-one-active invariant for every organization. -/
theorem C9_at_most_one_active (db : DBState) (sub : SubscriptionRow) (now : Int)
    (h : AtMostOneActive db.subscriptions now) :
    AtMostOneActive
      (SubscriptionService.CreateSubscription db sub now).subscriptions now := by
  intro orgID
  have hsingle : (activeSubs [sub] orgID now).length ≤ 1 := by
    simpa using List.length_filter_le (activeFor orgID now) [sub]
  cases hga : SubscriptionService.GetActiveSubscription db sub.organizationID now with
  | none =>
      have hemp : activeSubs db.subscriptions sub.organizationID now = [] :=
        latestEnding_eq_none.mp
          (by simpa [SubscriptionService.GetActiveSubscription] using hga)
      simp only [SubscriptionService.CreateSubscription, hga]
      rw [activeSubs, List.filter_append, List.length_append]
      by_cases horg : orgID = sub.organizationID
      · subst horg
        rw [show db.subscriptions.filter (activeFor sub.organizationID now) = [] from hemp]
        simpa using hsingle
      · have hf : activeFor orgID now sub = false := by
          have : (sub.organizationID == orgID) = false :=
            beq_eq_false_iff_ne.mpr (fun hh => horg hh.symm)
          simp [activeFor, this]
        have : ([sub].filter (activeFor orgID now)).length = 0 := by
          simp [List.filter, hf]
        rw [this]
        simpa [activeSubs] using h orgID
  | some e =>
      have hge : latestEnding (activeSubs db.subscriptions sub.organizationID now) = some e := by
        simpa [SubscriptionService.GetActiveSubscription] using hga
      have hmem : e ∈ activeSubs db.subscriptions sub.organizationID now :=
        latestEnding_mem hge
      simp only [SubscriptionService.CreateSubscription, hga,
        SubscriptionService.cancelSubscription]
      rw [activeSubs, List.filter_append, List.length_append]
      by_cases horg : orgID = sub.organizationID
      · subst horg
        have h0 := activeSubs_after_cancel db.subscriptions sub.organizationID now e
          (h sub.organizationID) hmem
        rw [activeSubs] at h0
        rw [h0]
        simpa using hsingle
      · have hf : activeFor orgID now sub = false := by
          have : (sub.organizationID == orgID) = false :=
            beq_eq_false_iff_ne.mpr (fun hh => horg hh.symm)
          simp [activeFor, this]
        have hzero : ([sub].filter (activeFor orgID now)).length = 0 := by
          simp [List.filter, hf]
        rw [hzero]
        have hle := filter_map_length_le
          (fun r => if r.id == e.id then { r with status := "cancelled" } else r)
          (activeFor orgID now) (activeFor_cancel e.id) db.subscriptions
        have hh := h orgID
        rw [activeSubs] at hh
        simpa using le_trans hle hh

/-- C9 witness: the preservation theorem applied at a database holding one
active subscription, with the invariant hypothesis discharged concretely. -/
theorem C9_witness :
    AtMostOneActive
      (SubscriptionService.CreateSubscription c9db c9sub 0).subscriptions 0 :=
  C9_at_most_one_active c9db c9sub 0
    (fun orgID => by
      simpa using List.length_filter_le (activeFor orgID 0) c9db.subscriptions)

/-! ## Token-claim theorems (C3, C4, C5) -/

/-- C3 counterexample: a refresh-typed token minted by generateToken with the
shared secret, presented to the legacy Service.VerifyToken while unexpired,
is accepted and yields the subject — not rejected with ErrInvalidToken as
the claim requires of access-token verification. -/
theorem C3_counterexample :
    (generateToken "k" 0 "u1" "refresh" 100).claims.typ = some "refresh" ∧
    ServiceLegacy.VerifyToken "k" 10 (generateToken "k" 0 "u1" "refresh" 100) =
      Except.ok "u1" := by
  exact ⟨rfl, rfl⟩

/-- C3 amended: the typed verifiers enforce token typing — ServiceImproved's
VerifyToken rejects an unexpired refresh-typed token and both RefreshToken
implementations reject an unexpired access-typed token, all with
ErrInvalidToken — but the legacy Service.VerifyToken ignores the type claim
and accepts the refresh-typed token. -/
theorem C3_token_typing (cfg : AuthConfig) (users : List String)
    (secret userID : String) (now iat expiry : Int)
    (hvalid : now < iat + expiry) :
    ServiceImproved.VerifyToken secret now
        (generateToken secret iat userID "refresh" expiry) =
      Except.error GoErr.errInvalidToken ∧
    ServiceImproved.RefreshToken cfg users now
        (generateToken cfg.jwtSecret iat userID "access" expiry) =
      Except.error GoErr.errInvalidToken ∧
    ServiceTyped.RefreshToken cfg now
        (generateToken cfg.jwtSecret iat userID "access" expiry) =
      Except.error GoErr.errInvalidToken ∧
    ServiceLegacy.VerifyToken secret now
        (generateToken secret iat userID "refresh" expiry) =
      Except.ok userID := by
  have hnot : ¬(iat + expiry ≤ now) := not_le.mpr hvalid
  refine ⟨?_, ?_, ?_, ?_⟩
  · simp [ServiceImproved.VerifyToken, ServiceImproved.parseToken, jwtParse,
      generateToken, hnot]
  · simp [ServiceImproved.RefreshToken, ServiceImproved.parseToken, jwtParse,
      generateToken, hnot]
  · simp [ServiceTyped.RefreshToken, ServiceImproved.parseToken, jwtParse,
      generateToken, hnot]
  · simp [ServiceLegacy.VerifyToken, jwtParse, generateToken, hnot]

/-- C3 witness: the amended theorem applied at a concrete configuration. -/
theorem C3_witness :
    ServiceImproved.VerifyToken "k" 10 (generateToken "k" 0 "u1" "refresh" 100) =
      Except.error GoErr.errInvalidToken ∧
    ServiceTyped.RefreshToken ⟨"k", 50, 1000⟩ 10
        (generateToken "k" 0 "u1" "access" 100) =
      Except.error GoErr.errInvalidToken :=
  ⟨(C3_token_typing ⟨"k", 50, 1000⟩ [] "k" "u1" 10 0 100 (by decide)).1,
   (C3_token_typing ⟨"k", 50, 1000⟩ [] "k" "u1" 10 0 100 (by decide)).2.2.1⟩

/-- C4 counterexample: a well-signed but expired token run through the legacy
Service.VerifyToken produces the raw jwt ValidationError (Expired flag set,
SignatureInvalid clear), not the auth package's ErrTokenExpired sentinel
that the claim names — the legacy verifier simply propagates whatever
jwt.Parse returned. -/
theorem C4_counterexample :
    ServiceLegacy.VerifyToken "k" 200 (generateToken "k" 0 "u1" "access" 100) =
      Except.error (GoErr.jwtValidation true false) ∧
    GoErr.jwtValidation true false ≠ GoErr.errTokenExpired ∧
    GoErr.jwtValidation true false ≠ GoErr.errInvalidToken := by
  refine ⟨rfl, by decide, by decide⟩

/-- C4 amended: ServiceImproved's parse path reports any well-signed expired
HMAC token as ErrTokenExpired, distinct from the ErrInvalidToken reported
for a wrongly-signed unexpired token; because jwt v4 validates claims before
the signature and errors.Is tests the Expired flag, a wrongly-signed token
that is also expired yields ErrTokenExpired as well.  The legacy
Service.VerifyToken, however, returns the raw jwt validation error instead
of either sentinel. -/
theorem C4_expiry_distinct (secret : String) (now : Int) (t t2 t3 : SignedToken)
    (hsig : t.signedWith = secret) (hhmac : t.hmacSigned = true)
    (hexp : t.claims.exp ≤ now)
    (hbad : ¬(t2.signedWith = secret)) (hhmac2 : t2.hmacSigned = true)
    (hfresh : now < t2.claims.exp)
    (hbad3 : ¬(t3.signedWith = secret)) (hhmac3 : t3.hmacSigned = true)
    (hexp3 : t3.claims.exp ≤ now) :
    ServiceImproved.parseToken secret now t = Except.error GoErr.errTokenExpired ∧
    ServiceImproved.VerifyToken secret now t = Except.error GoErr.errTokenExpired ∧
    ServiceImproved.parseToken secret now t2 = Except.error GoErr.errInvalidToken ∧
    GoErr.errTokenExpired ≠ GoErr.errInvalidToken ∧
    ServiceImproved.parseToken secret now t3 = Except.error GoErr.errTokenExpired ∧
    ServiceLegacy.VerifyToken secret now t =
      Except.error (GoErr.jwtValidation true false) ∧
    GoErr.jwtValidation true false ≠ GoErr.errTokenExpired := by
  have hb : (t.signedWith == secret) = true := by simp [hsig]
  have hb2 : (t2.signedWith == secret) = false := by simpa using hbad
  have hb3 : (t3.signedWith == secret) = false := by simpa using hbad3
  have hd : decide (t.claims.exp ≤ now) = true := decide_eq_true hexp
  have hd2 : decide (t2.claims.exp ≤ now) = false :=
    decide_eq_false (not_le.mpr hfresh)
  have hd3 : decide (t3.claims.exp ≤ now) = true := decide_eq_true hexp3
  refine ⟨?_, ?_, ?_, by decide, ?_, ?_, by decide⟩
  · simp [ServiceImproved.parseToken, jwtParse, hb, hhmac, hd]
  · simp [ServiceImproved.VerifyToken, ServiceImproved.parseToken, jwtParse,
      hb, hhmac, hd]
  · simp [ServiceImproved.parseToken, jwtParse, hb2, hhmac2, hd2]
  · simp [ServiceImproved.parseToken, jwtParse, hb3, hhmac3, hd3]
  · simp [ServiceLegacy.VerifyToken, jwtParse, hb, hhmac, hd]

/-- C4 witness: the amended theorem applied to a concrete well-signed expired
token, a concrete wrongly-signed unexpired token, and a concrete token that
is both wrongly signed and expired. -/
theorem C4_witness :
    ServiceImproved.parseToken "k" 200 (generateToken "k" 0 "u1" "access" 100) =
      Except.error GoErr.errTokenExpired ∧
    ServiceImproved.parseToken "k" 200 (generateToken "wrong" 0 "u1" "access" 900) =
      Except.error GoErr.errInvalidToken ∧
    ServiceImproved.parseToken "k" 200 (generateToken "wrong" 0 "u1" "access" 100) =
      Except.error GoErr.errTokenExpired :=
  ⟨(C4_expiry_distinct "k" 200 (generateToken "k" 0 "u1" "access" 100)
      (generateToken "wrong" 0 "u1" "access" 900)
      (generateToken "wrong" 0 "u1" "access" 100) rfl rfl (by decide)
      (by decide) rfl (by decide) (by decide) rfl (by decide)).1,
   (C4_expiry_distinct "k" 200 (generateToken "k" 0 "u1" "access" 100)
      (generateToken "wrong" 0 "u1" "access" 900)
      (generateToken "wrong" 0 "u1" "access" 100) rfl rfl (by decide)
      (by decide) rfl (by decide) (by decide) rfl (by decide)).2.2.1,
   (C4_expiry_distinct "k" 200 (generateToken "k" 0 "u1" "access" 100)
      (generateToken "wrong" 0 "u1" "access" 900)
      (generateToken "wrong" 0 "u1" "access" 100) rfl rfl (by decide)
      (by decide) rfl (by decide) (by decide) rfl (by decide)).2.2.2.2.1⟩

/-- C5 counterexample: for a valid unexpired refresh token whose subject is
absent from the user table, ServiceImproved fails with ErrUserNotFound, but
the typed internal/auth/service.go RefreshToken still mints a brand-new pair
without any existence check — contradicting the claim for that service. -/
theorem C5_counterexample :
    ServiceImproved.RefreshToken ⟨"k", 50, 1000⟩ [] 10
        (generateToken "k" 0 "u1" "refresh" 100) =
      Except.error GoErr.errUserNotFound ∧
    ServiceTyped.RefreshToken ⟨"k", 50, 1000⟩ 10
        (generateToken "k" 0 "u1" "refresh" 100) =
      Except.ok (generateTokenPair ⟨"k", 50, 1000⟩ 10 "u1") := by
  refine ⟨rfl, rfl⟩

/-- C5 amended: ServiceImproved.RefreshToken re-resolves the subject and
fails with ErrUserNotFound exactly when the subject no longer exists,
minting a brand-new pair otherwise; the typed internal/auth/service.go
RefreshToken always mints a new pair for a valid refresh token, regardless
of whether the subject still exists. -/
theorem C5_refresh_user_resolution (cfg : AuthConfig) (users : List String)
    (userID : String) (now iat expiry : Int)
    (hvalid : now < iat + expiry) :
    (users.contains userID = false →
      ServiceImproved.RefreshToken cfg users now
          (generateToken cfg.jwtSecret iat userID "refresh" expiry) =
        Except.error GoErr.errUserNotFound) ∧
    (users.contains userID = true →
      ServiceImproved.RefreshToken cfg users now
          (generateToken cfg.jwtSecret iat userID "refresh" expiry) =
        Except.ok (generateTokenPair cfg now userID)) ∧
    ServiceTyped.RefreshToken cfg now
        (generateToken cfg.jwtSecret iat userID "refresh" expiry) =
      Except.ok (generateTokenPair cfg now userID) := by
  have hnot : ¬(iat + expiry ≤ now) := not_le.mpr hvalid
  refine ⟨?_, ?_, ?_⟩
  · intro habs
    have hmem : userID ∉ users := by simpa using habs
    simp [ServiceImproved.RefreshToken, ServiceImproved.parseToken, jwtParse,
      generateToken, hnot, hmem]
  · intro hpres
    have hmem : userID ∈ users := by simpa using hpres
    simp [ServiceImproved.RefreshToken, ServiceImproved.parseToken, jwtParse,
      generateToken, hnot, hmem]
  · simp [ServiceTyped.RefreshToken, ServiceImproved.parseToken, jwtParse,
      generateToken, hnot]

/-- C5 witness: the amended theorem applied with an empty user table and with
a table containing the subject. -/
theorem C5_witness :
    ServiceImproved.RefreshToken ⟨"k", 50, 1000⟩ [] 10
        (generateToken "k" 0 "u1" "refresh" 100) =
      Except.error GoErr.errUserNotFound ∧
    ServiceImproved.RefreshToken ⟨"k", 50, 1000⟩ ["u1"] 10
        (generateToken "k" 0 "u1" "refresh" 100) =
      Except.ok (generateTokenPair ⟨"k", 50, 1000⟩ 10 "u1") :=
  ⟨(C5_refresh_user_resolution ⟨"k", 50, 1000⟩ [] "u1" 10 0 100 (by decide)).1
      (by decide),
   ((C5_refresh_user_resolution ⟨"k", 50, 1000⟩ ["u1"] "u1" 10 0 100 (by decide)).2.1)
      (by decide)⟩

end SecretsManager
